import Mathlib

/-!
Shallow embedding of `server/hosts/install_server.py` (class `CobblerInterface`).

The remote XML-RPC server, the wall clock and the host collaborator are
modelled by an environment oracle `Env`:

* `find_result` is the list returned by `server.find_system({"name": hostname})`;
* `get_system i` is the descriptor returned by the i-th call to
  `server.get_system(system)` inside one `install_host` call (call 0 is the
  pre-loop profile read at line 86; the k-th in-loop status poll is call k+1);
* `dhcp_fault` is the `xmlrpclib.Fault` raised by `server.sync_dhcp`, if any;
* `lag k` is the extra wall-clock time (beyond the 60 s `time.sleep`) consumed
  by iteration k of the poll loop (sleep overshoot plus RPC latency), so that
  the elapsed-time reading `time.time() - install_start` taken at line 127
  after the k-th poll equals `elapsed_seq lag (k+1)`.

Each operation returns its Python result (`Except PyErr _`, where `PyErr`
covers the exceptions the module can raise or see) together with the ordered
trace of externally visible effects (remote calls, host `record` events,
sleeps, `wait_for_restart`).
-/

namespace InstallServer

/-- Externally visible effects of one operation, in order of occurrence. -/
inductive Event : Type where
  | removeHostsFile : Event
  | findSystem (name : String) : Event
  | getSystemHandle (system : Nat) : Event
  | getSystem (system : Nat) : Event
  | modifySystem (field : String) (value : String) : Event
  | syncDhcp : Event
  | logError (msg : String) : Event
  | saveSystem : Event
  | powerSystem (state : String) : Event
  | record (status : String) (subdir : Option String) (operation : String) (msg : String) : Event
  | sleep (seconds : Nat) : Event
  | waitForRestart : Event
deriving DecidableEq, Repr

/-- Python exceptions relevant to the module. -/
inductive PyErr : Type where
  | valueError (msg : String) : PyErr
  | fault (faultCode : Int) (faultString : String) : PyErr
  | hostInstallTimeoutError (msg : String) : PyErr
deriving DecidableEq, Repr

/-- Descriptor returned by `server.get_system`: the two fields the code reads
via `.get`, with `none`/falsy collapsed for `netboot_enabled` truthiness. -/
structure SystemInfo : Type where
  profile : Option String
  netboot_enabled : Bool
deriving DecidableEq, Repr

/-- An `xmlrpclib.Fault`, as inspected by the DHCP-sync handler. -/
structure XFault : Type where
  faultCode : Int
  faultString : String
deriving DecidableEq, Repr

/-- Environment oracle: remote-server responses and wall-clock behaviour for
one operation call (see the module docstring). -/
structure Env : Type where
  find_result : List Nat
  get_system : Nat → SystemInfo
  dhcp_fault : Option XFault
  lag : Nat → Nat

/-- Constructed client session (`CobblerInterface.__init__` attributes). -/
structure CobblerInterface : Type where
  xmlrpc_url : String
  user : String
  password : String
  fallback_profile : Option String

/-- Host collaborator: only its `hostname` attribute is read. -/
structure Host : Type where
  hostname : String

/-- Python truthiness of an optional string (`None` and `""` are falsy). -/
def truthy : Option String → Bool
  | none => false
  | some s => !s.isEmpty

/-- Whether `needle` occurs at the head of `hay`. -/
def leadingMatch : List Char → List Char → Bool
  | [], _ => true
  | _ :: _, [] => false
  | a :: as, b :: bs => a == b && leadingMatch as bs

/-- Whether `needle` occurs anywhere inside `hay`. -/
def hasSubList (needle : List Char) : List Char → Bool
  | [] => needle.isEmpty
  | c :: rest => leadingMatch needle (c :: rest) || hasSubList needle rest

/-- Python substring test `needle in hay` on strings. -/
def strHasSub (hay needle : String) : Bool :=
  hasSubList needle.data hay.data

/-- Fixed poll interval of the install loop (`step_time = 60`). -/
def step_time : Nat := 60

/-- The `time.time() - install_start` reading after j completed loop
iterations: iteration k sleeps `step_time` seconds and loses `lag k` more. -/
def elapsed_seq (lag : Nat → Nat) : Nat → Nat
  | 0 => 0
  | j + 1 => elapsed_seq lag j + step_time + lag j

/-- `CobblerInterface.get_system_handle`: `find_system` then either the
`IndexError` branch (log + `ValueError`) or `get_system_handle`.  The opaque
remote handle is modelled by the system identifier itself. -/
def get_system_handle (c : CobblerInterface) (env : Env) (host : Host) :
    Except PyErr (Nat × Nat) × List Event :=
  match env.find_result with
  | [] =>
      (Except.error (PyErr.valueError
          ("No system " ++ host.hostname ++ " registered on install server")),
       [Event.findSystem host.hostname,
        Event.logError ("Error finding " ++ host.hostname)])
  | system :: _ =>
      (Except.ok (system, system),
       [Event.findSystem host.hostname, Event.getSystemHandle system])

/-- Lines 83-84 of `install_host`: `if profile is None: profile =
self.fallback_profile`. -/
def requested_or_fallback (fallback requested : Option String) : Option String :=
  match requested with
  | none => fallback
  | some p => some p

/-- Lines 83-94 of `install_host`: substitute the fallback profile when no
profile was requested, then mutate the remote profile only when the result is
truthy and differs from the current one; the first component is the final
value of the `profile` variable (the effective profile), the second the
`modify_system` calls issued. -/
def choose_profile (fallback requested current : Option String) :
    Option String × List Event :=
  let profile := requested_or_fallback fallback requested
  if truthy profile && profile != current then
    (profile, [Event.modifySystem "profile" (profile.getD "")])
  else
    (current, [])

/-- Lines 100-109 of `install_host`: `sync_dhcp` with its fault handler; an
"unknown remote method" fault is swallowed silently, any other fault is
logged; no fault propagates. -/
def dhcp_events (env : Env) : List Event :=
  Event.syncDhcp ::
    match env.dhcp_fault with
    | none => []
    | some err =>
        if strHasSub err.faultString "unknown remote method" then []
        else [Event.logError ("DHCP sync failed, error code: "
                ++ toString err.faultCode ++ ", error string: " ++ err.faultString)]

/-- Result of the poll loop (lines 118-127): the final values of the Python
variables `install_successful` and `time_elapsed`, the number of completed
sleep/poll iterations, and the loop trace. -/
structure LoopOut : Type where
  install_successful : Bool
  cycles : Nat
  time_elapsed : Nat
  trace : List Event
deriving DecidableEq, Repr

/-- The poll loop `while time_elapsed < timeout` of lines 121-127, started at
iteration index k with the current `time_elapsed` value.  Each iteration
sleeps `step_time`, issues the in-loop `get_system` poll (call index k+1),
breaks on a falsy `netboot_enabled`, and otherwise re-reads the clock, so
`time_elapsed` grows by `step_time + lag k`.  `fuel` is a structural bound on
the remaining iterations; since every iteration raises `time_elapsed` by at
least `step_time ≥ 1`, any `fuel` with `timeout ≤ te + step_time * fuel`
is never exhausted (`poll_go_stable`), and `install_host` passes
`fuel := timeout`. -/
def poll_go (env : Env) (timeout system : Nat) :
    Nat → Nat → Nat → LoopOut
  | 0, k, te => ⟨false, k, te, []⟩
  | fuel + 1, k, te =>
      if te < timeout then
        if (env.get_system (k + 1)).netboot_enabled then
          let r := poll_go env timeout system fuel (k + 1) (te + step_time + env.lag k)
          ⟨r.install_successful, r.cycles, r.time_elapsed,
            Event.sleep step_time :: Event.getSystem system :: r.trace⟩
        else
          ⟨true, k + 1, te, [Event.sleep step_time, Event.getSystem system]⟩
      else
        ⟨false, k, te, []⟩

/-- Trace of n completed sleep/poll iterations. -/
def poll_pattern (system : Nat) : Nat → List Event
  | 0 => []
  | n + 1 => Event.sleep step_time :: Event.getSystem system :: poll_pattern system n

/-- `CobblerInterface.install_host`: body of lines 71-138; a no-op when no
endpoint is configured.  The `ValueError` of `get_system_handle` propagates;
the timeout path records "END FAIL" and raises `HostInstallTimeoutError`; the
success path waits for restart and records "END GOOD". -/
def install_host (c : CobblerInterface) (env : Env) (host : Host)
    (profile : Option String) (timeout0 : Option Nat) :
    Except PyErr Unit × List Event :=
  if c.xmlrpc_url.isEmpty then (Except.ok (), [])
  else
    let timeout := timeout0.getD 3600
    match get_system_handle c env host with
    | (Except.error e, t) => (Except.error e, Event.removeHostsFile :: t)
    | (Except.ok (system, _system_handle), t) =>
        let current_profile := (env.get_system 0).profile
        let chosen := choose_profile c.fallback_profile profile current_profile
        let pre : List Event :=
          Event.removeHostsFile :: t
            ++ [Event.getSystem system]
            ++ chosen.2
            ++ [Event.modifySystem "netboot_enabled" "True"]
            ++ dhcp_events env
            ++ [Event.saveSystem, Event.powerSystem "reboot",
                Event.record "START" none "install" host.hostname,
                Event.record "GOOD" none "install.start" host.hostname]
        let r := poll_go env timeout system timeout 0 0
        if r.install_successful then
          (Except.ok (),
           pre ++ r.trace
             ++ [Event.waitForRestart,
                 Event.record "END GOOD" none "install" host.hostname])
        else
          let e_msg := "Host " ++ host.hostname ++ " install timed out"
          (Except.error (PyErr.hostInstallTimeoutError e_msg),
           pre ++ r.trace ++ [Event.record "END FAIL" none "install" e_msg])

/-- `CobblerInterface.power_host`: a no-op when no endpoint is configured,
otherwise resolve the handle and issue one `power_system` call. -/
def power_host (c : CobblerInterface) (env : Env) (host : Host)
    (state : String) : Except PyErr Unit × List Event :=
  if c.xmlrpc_url.isEmpty then (Except.ok (), [])
  else
    match get_system_handle c env host with
    | (Except.error e, t) => (Except.error e, t)
    | (Except.ok (_system, _system_handle), t) =>
        (Except.ok (), t ++ [Event.powerSystem state])

/-- Event classifiers used by the claims. -/
def Event.isSleep : Event → Bool
  | .sleep _ => true
  | _ => false

def Event.isGetSystem : Event → Bool
  | .getSystem _ => true
  | _ => false

def Event.isModify : Event → Bool
  | .modifySystem _ _ => true
  | _ => false

def Event.isModifyProfile : Event → Bool
  | .modifySystem f _ => f == "profile"
  | _ => false

def Event.isMutating : Event → Bool
  | .modifySystem _ _ => true
  | .saveSystem => true
  | .powerSystem _ => true
  | _ => false

def Event.isLog : Event → Bool
  | .logError _ => true
  | _ => false

/-- Events emitted by `install_host` before the poll loop starts, when the
host resolves to system s. -/
def pre_events (c : CobblerInterface) (env : Env) (host : Host)
    (profile : Option String) (s : Nat) : List Event :=
  Event.removeHostsFile :: Event.findSystem host.hostname
    :: Event.getSystemHandle s :: Event.getSystem s
    :: ((choose_profile c.fallback_profile profile (env.get_system 0).profile).2
      ++ Event.modifySystem "netboot_enabled" "True" :: (dhcp_events env
      ++ [Event.saveSystem, Event.powerSystem "reboot",
          Event.record "START" none "install" host.hostname,
          Event.record "GOOD" none "install.start" host.hostname]))

/-- The timeout error message of line 130. -/
def timeout_msg (host : Host) : String :=
  "Host " ++ host.hostname ++ " install timed out"

/-! Concrete fixtures used by witnesses and counterexamples. -/

/-- A client with a configured endpoint and fallback profile "fb". -/
def cfgW : CobblerInterface := ⟨"http://cobbler", "u", "pw", some "fb"⟩

/-- A client session constructed with an empty endpoint. -/
def cfgOff : CobblerInterface := ⟨"", "u", "pw", some "fb"⟩

/-- The host under provisioning. -/
def hostW : Host := ⟨"h1"⟩

/-- An environment whose remote system never clears `netboot_enabled`. -/
def envAllOn : Env := ⟨[5], fun _ => ⟨some "old", true⟩, none, fun _ => 0⟩

/-- An environment whose remote system reads `netboot_enabled` as cleared on
the first in-loop poll (`get_system` call 1). -/
def envClears1 : Env := ⟨[5], fun i => ⟨some "old", i == 0⟩, none, fun _ => 0⟩

/-- An environment whose remote system reads `netboot_enabled` as cleared on
the second in-loop poll (`get_system` call 2). -/
def envClears2 : Env := ⟨[5], fun i => ⟨some "old", decide (i < 2)⟩, none, fun _ => 0⟩

/-- An environment in which `find_system` matches no remote system. -/
def envNoSystem : Env := ⟨[], fun _ => ⟨some "old", true⟩, none, fun _ => 0⟩

/-- A client with a configured endpoint and no fallback profile. -/
def cfgNoFb : CobblerInterface := ⟨"http://cobbler", "u", "pw", none⟩

/-- Like `envClears1`, but `sync_dhcp` raises a fault that does not mention
an unknown remote method. -/
def envFaultOther : Env :=
  ⟨[5], fun i => ⟨some "old", i == 0⟩, some ⟨7, "boom"⟩, fun _ => 0⟩

/-- Like `envClears1`, but `sync_dhcp` raises the old-server fault whose
fault string mentions an unknown remote method. -/
def envFaultUnknown : Env :=
  ⟨[5], fun i => ⟨some "old", i == 0⟩,
   some ⟨1, "method sync_dhcp: unknown remote method"⟩, fun _ => 0⟩

/-! Basic facts about the loop trace pattern and the auxiliary event lists. -/

lemma poll_pattern_mem (system : Nat) :
    ∀ n, ∀ e ∈ poll_pattern system n,
      e = Event.sleep step_time ∨ e = Event.getSystem system := by
  intro n
  induction n with
  | zero => intro e he; simp [poll_pattern] at he
  | succ n ih =>
      intro e he
      simp only [poll_pattern, List.mem_cons] at he
      rcases he with h | h | h
      · exact Or.inl h
      · exact Or.inr h
      · exact ih e h

lemma poll_pattern_countP_sleep (system : Nat) :
    ∀ n, (poll_pattern system n).countP Event.isSleep = n := by
  intro n
  induction n with
  | zero => rfl
  | succ n ih =>
      simp [poll_pattern, List.countP_cons, ih, Event.isSleep, Event.isGetSystem]

lemma poll_pattern_countP_get (system : Nat) :
    ∀ n, (poll_pattern system n).countP Event.isGetSystem = n := by
  intro n
  induction n with
  | zero => rfl
  | succ n ih =>
      simp [poll_pattern, List.countP_cons, ih, Event.isSleep, Event.isGetSystem]

lemma dhcp_events_mem (env : Env) :
    ∀ e ∈ dhcp_events env, e = Event.syncDhcp ∨ ∃ m, e = Event.logError m := by
  intro e he
  unfold dhcp_events at he
  rcases henv : env.dhcp_fault with _ | err
  · rw [henv] at he
    simp at he
    exact Or.inl he
  · rw [henv] at he
    by_cases hs : strHasSub err.faultString "unknown remote method" = true
    · simp [hs] at he
      exact Or.inl he
    · simp only [Bool.not_eq_true] at hs
      simp [hs] at he
      rcases he with h | h
      · exact Or.inl h
      · exact Or.inr ⟨_, h⟩

lemma choose_profile_snd (fallback requested current : Option String) :
    (choose_profile fallback requested current).2 = [] ∨
      ∃ p, (choose_profile fallback requested current).2
        = [Event.modifySystem "profile" p] := by
  simp only [choose_profile]
  split
  · exact Or.inr ⟨_, rfl⟩
  · exact Or.inl rfl

/-! Facts about the poll loop. -/

/-- Unfolding equation for `elapsed_seq`. -/
lemma elapsed_seq_succ (lag : Nat → Nat) (j : Nat) :
    elapsed_seq lag (j + 1) = elapsed_seq lag j + step_time + lag j := rfl

/-- Each completed iteration consumes at least `step_time` seconds. -/
lemma elapsed_seq_lower (lag : Nat → Nat) :
    ∀ j, step_time * j ≤ elapsed_seq lag j := by
  intro j
  induction j with
  | zero => simp [elapsed_seq]
  | succ j ih =>
      rw [elapsed_seq_succ]
      have : step_time * (j + 1) = step_time * j + step_time := by ring
      omega

/-- Structural facts about a run of the poll loop, for any fuel large enough
never to be exhausted: the cycle count only grows, `time_elapsed` only grows,
the trace is the sleep/poll pattern of the completed cycles, an unsuccessful
exit happens only once `time_elapsed` has reached the timeout, and when the
entry test passes at least one further cycle runs. -/
lemma poll_go_shape (env : Env) (timeout system : Nat) :
    ∀ fuel k te, timeout ≤ te + step_time * fuel →
      k ≤ (poll_go env timeout system fuel k te).cycles ∧
      te ≤ (poll_go env timeout system fuel k te).time_elapsed ∧
      (poll_go env timeout system fuel k te).trace
        = poll_pattern system ((poll_go env timeout system fuel k te).cycles - k) ∧
      ((poll_go env timeout system fuel k te).install_successful = false →
        timeout ≤ (poll_go env timeout system fuel k te).time_elapsed) ∧
      (te < timeout → k < (poll_go env timeout system fuel k te).cycles) := by
  intro fuel
  induction fuel with
  | zero =>
      intro k te hfuel
      simp only [step_time, Nat.mul_zero, Nat.add_zero] at hfuel
      refine ⟨Nat.le_refl _, Nat.le_refl _, ?_, fun _ => hfuel, fun h => by omega⟩
      show ([] : List Event) = poll_pattern system (k - k)
      rw [Nat.sub_self]
      rfl
  | succ fuel ih =>
      intro k te hfuel
      by_cases hte : te < timeout
      · rw [poll_go, if_pos hte]
        by_cases hnb : (env.get_system (k + 1)).netboot_enabled = true
        · rw [hnb]
          simp only [if_true]
          have hfuel' : timeout ≤ (te + step_time + env.lag k) + step_time * fuel := by
            simp only [step_time] at hfuel ⊢
            omega
          obtain ⟨h1, h2, h3, h4, h5⟩ := ih (k + 1) (te + step_time + env.lag k) hfuel'
          set r := poll_go env timeout system fuel (k + 1) (te + step_time + env.lag k)
          refine ⟨?_, ?_, ?_, ?_, ?_⟩
          · show k ≤ r.cycles
            omega
          · show te ≤ r.time_elapsed
            omega
          · show Event.sleep step_time :: Event.getSystem system :: r.trace
              = poll_pattern system (r.cycles - k)
            have hsub : r.cycles - k = (r.cycles - (k + 1)) + 1 := by omega
            rw [hsub, poll_pattern, h3]
          · exact h4
          · intro _
            show k < r.cycles
            omega
        · simp only [Bool.not_eq_true] at hnb
          rw [hnb]
          simp only [Bool.false_eq_true, if_false]
          refine ⟨?_, Nat.le_refl _, ?_, ?_, ?_⟩
          · show k ≤ k + 1
            omega
          · show [Event.sleep step_time, Event.getSystem system]
              = poll_pattern system (k + 1 - k)
            have h1 : k + 1 - k = 1 := by omega
            rw [h1]
            rfl
          · intro hfalse
            exact Bool.noConfusion hfalse
          · intro _
            show k < k + 1
            omega
      · rw [poll_go, if_neg hte]
        refine ⟨Nat.le_refl _, Nat.le_refl _, ?_, fun _ => ?_, fun h => absurd h hte⟩
        · show ([] : List Event) = poll_pattern system (k - k)
          rw [Nat.sub_self]
          rfl
        · show timeout ≤ te
          omega

/-- When the remote netboot flag never reads as cleared, the loop never
succeeds. -/
lemma poll_go_all_on (env : Env) (timeout system : Nat)
    (hnb : ∀ j, (env.get_system (j + 1)).netboot_enabled = true) :
    ∀ fuel k te, (poll_go env timeout system fuel k te).install_successful = false := by
  intro fuel
  induction fuel with
  | zero => intro k te; rfl
  | succ fuel ih =>
      intro k te
      rw [poll_go]
      by_cases hte : te < timeout
      · rw [if_pos hte, hnb k]
        simp only [if_true]
        exact ih (k + 1) _
      · rw [if_neg hte]

/-- When the netboot flag first reads as cleared on in-loop poll m (0-based)
and every loop-head test up to that point passes, the loop exits successfully
after exactly m + 1 sleep/poll cycles, with `time_elapsed` still holding the
reading taken before the final cycle (the `break` skips the update). -/
lemma poll_go_success (env : Env) (timeout system m : Nat)
    (hm : (env.get_system (m + 1)).netboot_enabled = false)
    (hprev : ∀ j, j < m → (env.get_system (j + 1)).netboot_enabled = true)
    (hreach : ∀ j, j ≤ m → elapsed_seq env.lag j < timeout) :
    ∀ fuel k, k ≤ m → m + 1 ≤ k + fuel →
      poll_go env timeout system fuel k (elapsed_seq env.lag k)
        = ⟨true, m + 1, elapsed_seq env.lag m, poll_pattern system (m + 1 - k)⟩ := by
  intro fuel
  induction fuel with
  | zero => intro k hk hkf; omega
  | succ fuel ih =>
      intro k hk hkf
      rw [poll_go, if_pos (hreach k hk)]
      by_cases hkm : k = m
      · subst hkm
        rw [hm]
        simp only [Bool.false_eq_true, if_false]
        have h1 : k + 1 - k = 1 := by omega
        rw [h1]
        rfl
      · have hkm' : k < m := Nat.lt_of_le_of_ne hk hkm
        rw [hprev k hkm']
        simp only [if_true]
        rw [← elapsed_seq_succ env.lag k, ih (k + 1) hkm' (by omega)]
        have h1 : m + 1 - k = (m + 1 - (k + 1)) + 1 := by omega
        rw [h1, poll_pattern]

/-! Reduction of `install_host` on the configured-endpoint path where the
host resolves to a remote system. -/

lemma install_host_fst (c : CobblerInterface) (env : Env) (host : Host)
    (profile : Option String) (timeout0 : Option Nat) (s : Nat) (rest : List Nat)
    (hurl : c.xmlrpc_url.isEmpty = false) (hfind : env.find_result = s :: rest) :
    (install_host c env host profile timeout0).1 =
      if (poll_go env (timeout0.getD 3600) s (timeout0.getD 3600) 0 0).install_successful
      then Except.ok ()
      else Except.error (PyErr.hostInstallTimeoutError (timeout_msg host)) := by
  simp only [install_host, get_system_handle, hfind, hurl, Bool.false_eq_true,
    if_false, timeout_msg]
  split <;> rfl

lemma install_host_snd (c : CobblerInterface) (env : Env) (host : Host)
    (profile : Option String) (timeout0 : Option Nat) (s : Nat) (rest : List Nat)
    (hurl : c.xmlrpc_url.isEmpty = false) (hfind : env.find_result = s :: rest) :
    (install_host c env host profile timeout0).2 =
      pre_events c env host profile s
        ++ (poll_go env (timeout0.getD 3600) s (timeout0.getD 3600) 0 0).trace
        ++ (if (poll_go env (timeout0.getD 3600) s
                (timeout0.getD 3600) 0 0).install_successful
            then [Event.waitForRestart,
                  Event.record "END GOOD" none "install" host.hostname]
            else [Event.record "END FAIL" none "install" (timeout_msg host)]) := by
  simp only [install_host, get_system_handle, hfind, hurl, Bool.false_eq_true,
    if_false, timeout_msg, pre_events]
  split <;> simp [List.append_assoc]

/-! Counting lemmas over the trace segments. -/

lemma choose_profile_countP_sleep (f r cur : Option String) :
    ((choose_profile f r cur).2).countP Event.isSleep = 0 := by
  rcases choose_profile_snd f r cur with h | ⟨p, h⟩ <;> rw [h] <;> rfl

lemma choose_profile_countP_get (f r cur : Option String) :
    ((choose_profile f r cur).2).countP Event.isGetSystem = 0 := by
  rcases choose_profile_snd f r cur with h | ⟨p, h⟩ <;> rw [h] <;> rfl

lemma choose_profile_countP_log (f r cur : Option String) :
    ((choose_profile f r cur).2).countP Event.isLog = 0 := by
  rcases choose_profile_snd f r cur with h | ⟨p, h⟩ <;> rw [h] <;> rfl

lemma choose_profile_filter_modify (f r cur : Option String) :
    ((choose_profile f r cur).2).filter Event.isModify = (choose_profile f r cur).2 := by
  rcases choose_profile_snd f r cur with h | ⟨p, h⟩ <;> rw [h] <;> rfl

lemma dhcp_events_countP_sleep (env : Env) :
    (dhcp_events env).countP Event.isSleep = 0 := by
  rw [List.countP_eq_zero]
  intro e he
  rcases dhcp_events_mem env e he with h | ⟨m, h⟩ <;> subst h <;> simp [Event.isSleep]

lemma dhcp_events_countP_get (env : Env) :
    (dhcp_events env).countP Event.isGetSystem = 0 := by
  rw [List.countP_eq_zero]
  intro e he
  rcases dhcp_events_mem env e he with h | ⟨m, h⟩ <;> subst h <;> simp [Event.isGetSystem]

lemma dhcp_events_filter_modify (env : Env) :
    (dhcp_events env).filter Event.isModify = [] := by
  rw [List.filter_eq_nil_iff]
  intro e he
  rcases dhcp_events_mem env e he with h | ⟨m, h⟩ <;> subst h <;> simp [Event.isModify]

lemma poll_pattern_countP_log (system : Nat) (n : Nat) :
    (poll_pattern system n).countP Event.isLog = 0 := by
  rw [List.countP_eq_zero]
  intro e he
  rcases poll_pattern_mem system n e he with h | h <;> subst h <;> simp [Event.isLog]

lemma poll_pattern_filter_modify (system : Nat) (n : Nat) :
    (poll_pattern system n).filter Event.isModify = [] := by
  rw [List.filter_eq_nil_iff]
  intro e he
  rcases poll_pattern_mem system n e he with h | h <;> subst h <;> simp [Event.isModify]

lemma pre_events_countP_sleep (c : CobblerInterface) (env : Env) (host : Host)
    (profile : Option String) (s : Nat) :
    (pre_events c env host profile s).countP Event.isSleep = 0 := by
  simp [pre_events, List.countP_cons, List.countP_append, choose_profile_countP_sleep,
    dhcp_events_countP_sleep, Event.isSleep]

lemma pre_events_countP_get (c : CobblerInterface) (env : Env) (host : Host)
    (profile : Option String) (s : Nat) :
    (pre_events c env host profile s).countP Event.isGetSystem = 1 := by
  simp [pre_events, List.countP_cons, List.countP_append, choose_profile_countP_get,
    dhcp_events_countP_get, Event.isGetSystem]

/-! Claim C1. -/

/-- Claim C1, refuted as stated: the claim asserts that with a never-clearing
netboot flag the timeout error is never raised before at least one poll
interval has elapsed, for every timeout value.  With timeout 0 the loop-head
test `time_elapsed < timeout` fails immediately, so `install_host` raises the
timeout error with zero sleeps and zero in-loop status polls (the single
`get_system` call is the pre-loop profile read). -/
theorem c1_counterexample :
    (install_host cfgW envAllOn hostW none (some 0)).1
        = Except.error (PyErr.hostInstallTimeoutError "Host h1 install timed out")
      ∧ ((install_host cfgW envAllOn hostW none (some 0)).2).countP Event.isSleep = 0
      ∧ ((install_host cfgW envAllOn hostW none (some 0)).2).countP
          Event.isGetSystem = 1 := by
  refine ⟨rfl, by decide, by decide⟩

/-- Claim C1, amended: for every install call with a configured endpoint, a
resolvable host, a netboot flag that never reads as cleared, and a positive
configured timeout, `install_host` raises the timeout error carrying the
hostname, only once the observed elapsed time since loop start has reached
the timeout, and only after at least one sleep/poll cycle in which the sleep
precedes the status check. -/
theorem c1_timeout_only_after_elapsed (c : CobblerInterface) (env : Env)
    (host : Host) (profile : Option String) (timeout0 : Option Nat)
    (s : Nat) (rest : List Nat)
    (hurl : c.xmlrpc_url.isEmpty = false)
    (hfind : env.find_result = s :: rest)
    (hnb : ∀ j, (env.get_system (j + 1)).netboot_enabled = true)
    (hpos : 1 ≤ timeout0.getD 3600) :
    (install_host c env host profile timeout0).1
        = Except.error (PyErr.hostInstallTimeoutError (timeout_msg host))
      ∧ timeout0.getD 3600
          ≤ (poll_go env (timeout0.getD 3600) s (timeout0.getD 3600) 0 0).time_elapsed
      ∧ 1 ≤ (poll_go env (timeout0.getD 3600) s (timeout0.getD 3600) 0 0).cycles
      ∧ (poll_go env (timeout0.getD 3600) s (timeout0.getD 3600) 0 0).trace
          = poll_pattern s
              (poll_go env (timeout0.getD 3600) s (timeout0.getD 3600) 0 0).cycles
      ∧ 1 ≤ ((install_host c env host profile timeout0).2).countP Event.isSleep := by
  set T := timeout0.getD 3600 with hT
  have hfail := poll_go_all_on env T s hnb T 0 0
  obtain ⟨h1, h2, h3, h4, h5⟩ :=
    poll_go_shape env T s T 0 0 (by simp only [step_time]; omega)
  have hcyc : 1 ≤ (poll_go env T s T 0 0).cycles := h5 (by omega)
  have htrace : (poll_go env T s T 0 0).trace
      = poll_pattern s (poll_go env T s T 0 0).cycles := by
    simpa using h3
  refine ⟨?_, h4 hfail, hcyc, htrace, ?_⟩
  · rw [install_host_fst c env host profile timeout0 s rest hurl hfind, ← hT, hfail]
    rfl
  · rw [install_host_snd c env host profile timeout0 s rest hurl hfind, ← hT]
    rw [List.countP_append, List.countP_append]
    have hc : (poll_go env T s T 0 0).trace.countP Event.isSleep
        = (poll_go env T s T 0 0).cycles := by
      rw [htrace, poll_pattern_countP_sleep]
    omega

/-- Witness for C1 at a concrete input: endpoint configured, system found,
netboot never clears, timeout 60 s; one 60 s sleep/poll cycle runs, the
elapsed reading reaches 60, and the timeout error is raised. -/
theorem c1_witness :
    (install_host cfgW envAllOn hostW none (some 60)).1
        = Except.error (PyErr.hostInstallTimeoutError (timeout_msg hostW))
      ∧ 60 ≤ (poll_go envAllOn 60 5 60 0 0).time_elapsed
      ∧ 1 ≤ (poll_go envAllOn 60 5 60 0 0).cycles
      ∧ (poll_go envAllOn 60 5 60 0 0).trace
          = poll_pattern 5 (poll_go envAllOn 60 5 60 0 0).cycles
      ∧ 1 ≤ ((install_host cfgW envAllOn hostW none (some 60)).2).countP
          Event.isSleep :=
  c1_timeout_only_after_elapsed cfgW envAllOn hostW none (some 60) 5 []
    (by decide) rfl (fun j => rfl) (by decide)

/-! Claim C2. -/

/-- Claim C2, refuted as stated: the claim asserts the total number of calls
to `get_system` equals N when the netboot flag first reads cleared on the
Nth in-loop poll.  With a flag that clears on the first poll (N = 1) the
install succeeds after exactly one sleep/poll cycle, yet `get_system` is
called twice: once before the loop at line 86 to read the current profile,
and once inside the loop. -/
theorem c2_counterexample :
    (poll_go envClears1 120 5 120 0 0).cycles = 1
      ∧ (install_host cfgW envClears1 hostW none (some 120)).1 = Except.ok ()
      ∧ ((install_host cfgW envClears1 hostW none (some 120)).2).countP
          Event.isGetSystem = 2 := by
  refine ⟨by decide, rfl, by decide⟩

/-- Claim C2, amended: when the netboot flag first reads as cleared on in-loop
poll m (0-based; the (m+1)-th poll) and every loop-head test up to it passes,
`install_host` performs exactly m+1 sleep/poll cycles, issues m+1 in-loop
status queries, calls `wait_for_restart` and records the END GOOD event after
the loop, and issues m+2 `get_system` calls in total (the extra one is the
pre-loop profile read). -/
theorem c2_success_cycle_counts (c : CobblerInterface) (env : Env)
    (host : Host) (profile : Option String) (timeout0 : Option Nat)
    (s : Nat) (rest : List Nat) (m : Nat)
    (hurl : c.xmlrpc_url.isEmpty = false)
    (hfind : env.find_result = s :: rest)
    (hm : (env.get_system (m + 1)).netboot_enabled = false)
    (hprev : ∀ j, j < m → (env.get_system (j + 1)).netboot_enabled = true)
    (hreach : ∀ j, j ≤ m → elapsed_seq env.lag j < timeout0.getD 3600) :
    (install_host c env host profile timeout0).1 = Except.ok ()
      ∧ (poll_go env (timeout0.getD 3600) s (timeout0.getD 3600) 0 0).cycles = m + 1
      ∧ ((poll_go env (timeout0.getD 3600) s (timeout0.getD 3600) 0 0).trace).countP
          Event.isGetSystem = m + 1
      ∧ ((install_host c env host profile timeout0).2).countP Event.isSleep = m + 1
      ∧ ((install_host c env host profile timeout0).2).countP Event.isGetSystem = m + 2
      ∧ (install_host c env host profile timeout0).2
          = pre_events c env host profile s ++ poll_pattern s (m + 1)
            ++ [Event.waitForRestart,
                Event.record "END GOOD" none "install" host.hostname] := by
  set T := timeout0.getD 3600 with hT
  have hfuel : m + 1 ≤ 0 + T := by
    have h60 := elapsed_seq_lower env.lag m
    have hm' := hreach m (Nat.le_refl m)
    simp only [step_time] at h60
    omega
  have hrun : poll_go env T s T 0 0
      = ⟨true, m + 1, elapsed_seq env.lag m, poll_pattern s (m + 1 - 0)⟩ :=
    poll_go_success env T s m hm hprev hreach T 0 (Nat.zero_le m) (by omega)
  rw [Nat.sub_zero] at hrun
  have hsnd : (install_host c env host profile timeout0).2
      = pre_events c env host profile s ++ poll_pattern s (m + 1)
        ++ [Event.waitForRestart,
            Event.record "END GOOD" none "install" host.hostname] := by
    rw [install_host_snd c env host profile timeout0 s rest hurl hfind, ← hT, hrun]
    rfl
  refine ⟨?_, ?_, ?_, ?_, ?_, hsnd⟩
  · rw [install_host_fst c env host profile timeout0 s rest hurl hfind, ← hT, hrun]
    rfl
  · rw [hrun]
  · rw [hrun]
    exact poll_pattern_countP_get s (m + 1)
  · rw [hsnd, List.countP_append, List.countP_append, pre_events_countP_sleep,
      poll_pattern_countP_sleep]
    have htail : List.countP Event.isSleep
        [Event.waitForRestart,
         Event.record "END GOOD" none "install" host.hostname] = 0 := rfl
    omega
  · rw [hsnd, List.countP_append, List.countP_append, pre_events_countP_get,
      poll_pattern_countP_get]
    have htail : List.countP Event.isGetSystem
        [Event.waitForRestart,
         Event.record "END GOOD" none "install" host.hostname] = 0 := rfl
    omega

/-- Witness for C2 at the concrete end-to-end scenario of the specification:
timeout 120 s, flag clears on the second in-loop poll (m = 1), so the install
succeeds after 2 cycles, with 2 in-loop status queries and 3 `get_system`
calls in total. -/
theorem c2_witness :
    (install_host cfgW envClears2 hostW none (some 120)).1 = Except.ok ()
      ∧ (poll_go envClears2 120 5 120 0 0).cycles = 2
      ∧ ((poll_go envClears2 120 5 120 0 0).trace).countP Event.isGetSystem = 2
      ∧ ((install_host cfgW envClears2 hostW none (some 120)).2).countP
          Event.isSleep = 2
      ∧ ((install_host cfgW envClears2 hostW none (some 120)).2).countP
          Event.isGetSystem = 3
      ∧ (install_host cfgW envClears2 hostW none (some 120)).2
          = pre_events cfgW envClears2 hostW none 5 ++ poll_pattern 5 2
            ++ [Event.waitForRestart,
                Event.record "END GOOD" none "install" hostW.hostname] :=
  c2_success_cycle_counts cfgW envClears2 hostW none (some 120) 5 [] 1
    (by decide) rfl rfl
    (by intro j hj
        have hj0 : j = 0 := Nat.lt_one_iff.mp hj
        subst hj0
        rfl)
    (by intro j hj
        interval_cases j <;> decide)

/-! Claim C3. -/

/-- Claim C3 (confirmed): for every client constructed with an empty
endpoint, every `install_host` and `power_host` call, for any host, profile,
timeout or power state, returns normally with an empty trace: no remote call
is issued, no error is raised, and no host event is recorded. -/
theorem c3_empty_endpoint_noop (c : CobblerInterface) (env : Env) (host : Host)
    (profile : Option String) (timeout0 : Option Nat) (state : String)
    (hurl : c.xmlrpc_url = "") :
    install_host c env host profile timeout0 = (Except.ok (), [])
      ∧ power_host c env host state = (Except.ok (), []) := by
  have h : c.xmlrpc_url.isEmpty = true := by rw [hurl]; rfl
  exact ⟨by simp [install_host, h], by simp [power_host, h]⟩

/-- Witness for C3 at a concrete input: the disabled client ignores install
and power requests entirely. -/
theorem c3_witness :
    install_host cfgOff envAllOn hostW (some "new") (some 120) = (Except.ok (), [])
      ∧ power_host cfgOff envAllOn hostW "off" = (Except.ok (), []) :=
  c3_empty_endpoint_noop cfgOff envAllOn hostW (some "new") (some 120) "off" rfl

/-! Claim C4. -/

/-- The effective profile either equals the current one with no profile
mutation issued, or differs from it with exactly one profile mutation
carrying the effective value. -/
lemma choose_profile_cases (f r cur : Option String) :
    ((choose_profile f r cur).1 = cur ∧ (choose_profile f r cur).2 = [])
    ∨ ((choose_profile f r cur).1 ≠ cur
        ∧ (choose_profile f r cur).2
          = [Event.modifySystem "profile" ((choose_profile f r cur).1.getD "")]) := by
  simp only [choose_profile]
  split
  case isTrue h =>
    right
    have hne : requested_or_fallback f r ≠ cur :=
      bne_iff_ne.mp ((Bool.and_eq_true _ _).mp h).2
    exact ⟨hne, rfl⟩
  case isFalse h =>
    left
    exact ⟨rfl, rfl⟩

/-- The `modify_system` calls of one resolving install run are exactly the
profile-mutation events followed by the netboot mutation. -/
lemma install_filter_modify (c : CobblerInterface) (env : Env) (host : Host)
    (profile : Option String) (timeout0 : Option Nat) (s : Nat) (rest : List Nat)
    (hurl : c.xmlrpc_url.isEmpty = false)
    (hfind : env.find_result = s :: rest) :
    ((install_host c env host profile timeout0).2).filter Event.isModify
      = (choose_profile c.fallback_profile profile (env.get_system 0).profile).2
        ++ [Event.modifySystem "netboot_enabled" "True"] := by
  set T := timeout0.getD 3600 with hT
  obtain ⟨h1, h2, h3, h4, h5⟩ :=
    poll_go_shape env T s T 0 0 (by simp only [step_time]; omega)
  rw [install_host_snd c env host profile timeout0 s rest hurl hfind, ← hT]
  rw [List.filter_append, List.filter_append]
  have hloop : ((poll_go env T s T 0 0).trace).filter Event.isModify = [] := by
    rw [h3, poll_pattern_filter_modify]
  have hpre : (pre_events c env host profile s).filter Event.isModify
      = (choose_profile c.fallback_profile profile (env.get_system 0).profile).2
        ++ [Event.modifySystem "netboot_enabled" "True"] := by
    simp [pre_events, List.filter_append, List.filter_cons,
      choose_profile_filter_modify, dhcp_events_filter_modify, Event.isModify]
  have htail : (if (poll_go env T s T 0 0).install_successful
      then [Event.waitForRestart,
            Event.record "END GOOD" none "install" host.hostname]
      else [Event.record "END FAIL" none "install"
            (timeout_msg host)]).filter Event.isModify = [] := by
    split <;> rfl
  rw [hloop, hpre, htail, List.append_nil, List.append_nil]

/-- Claim C4 (confirmed): when the effective target profile (the requested
profile, falling back to the session default, resolved against the current
remote profile) equals the current profile, no `modify_system` call for the
profile field is issued; when it differs, exactly one
`modify_system("profile", target)` call is issued, and it precedes the
`modify_system` call that sets `netboot_enabled`. -/
theorem c4_profile_modify_iff_changed (c : CobblerInterface) (env : Env)
    (host : Host) (profile : Option String) (timeout0 : Option Nat)
    (s : Nat) (rest : List Nat)
    (hurl : c.xmlrpc_url.isEmpty = false)
    (hfind : env.find_result = s :: rest) :
    ((choose_profile c.fallback_profile profile (env.get_system 0).profile).1
        = (env.get_system 0).profile →
      ((install_host c env host profile timeout0).2).filter Event.isModify
        = [Event.modifySystem "netboot_enabled" "True"])
    ∧ ((choose_profile c.fallback_profile profile (env.get_system 0).profile).1
        ≠ (env.get_system 0).profile →
      ((install_host c env host profile timeout0).2).filter Event.isModify
        = [Event.modifySystem "profile"
            ((choose_profile c.fallback_profile profile
              (env.get_system 0).profile).1.getD ""),
           Event.modifySystem "netboot_enabled" "True"]) := by
  have hfm := install_filter_modify c env host profile timeout0 s rest hurl hfind
  rcases choose_profile_cases c.fallback_profile profile (env.get_system 0).profile
    with ⟨heq, hnil⟩ | ⟨hne, hmod⟩
  · refine ⟨fun _ => ?_, fun hcontra => absurd heq hcontra⟩
    rw [hfm, hnil]
    rfl
  · refine ⟨fun hcontra => absurd hcontra hne, fun _ => ?_⟩
    rw [hfm, hmod]
    rfl

/-- Witness for C4 at a concrete input: requested profile "new" differs from
current profile "old", so the single profile mutation with value "new"
precedes the netboot mutation. -/
theorem c4_witness :
    ((choose_profile cfgW.fallback_profile (some "new")
        (envClears1.get_system 0).profile).1 = (envClears1.get_system 0).profile →
      ((install_host cfgW envClears1 hostW (some "new") (some 120)).2).filter
          Event.isModify
        = [Event.modifySystem "netboot_enabled" "True"])
    ∧ ((choose_profile cfgW.fallback_profile (some "new")
        (envClears1.get_system 0).profile).1 ≠ (envClears1.get_system 0).profile →
      ((install_host cfgW envClears1 hostW (some "new") (some 120)).2).filter
          Event.isModify
        = [Event.modifySystem "profile"
            ((choose_profile cfgW.fallback_profile (some "new")
              (envClears1.get_system 0).profile).1.getD ""),
           Event.modifySystem "netboot_enabled" "True"]) :=
  c4_profile_modify_iff_changed cfgW envClears1 hostW (some "new") (some 120) 5 []
    (by decide) rfl

/-! Claim C5. -/

/-- Claim C5 (confirmed): when `find_system` matches no remote system,
`get_system_handle` fails with the "not registered" `ValueError` carrying the
hostname and issues no mutating remote call, and an `install_host` call on
such a host propagates the same error, likewise without any mutating call. -/
theorem c5_unregistered_fails_without_mutation (c : CobblerInterface)
    (env : Env) (host : Host) (profile : Option String) (timeout0 : Option Nat)
    (hurl : c.xmlrpc_url.isEmpty = false)
    (hfind : env.find_result = []) :
    (get_system_handle c env host).1
        = Except.error (PyErr.valueError
            ("No system " ++ host.hostname ++ " registered on install server"))
      ∧ ((get_system_handle c env host).2).countP Event.isMutating = 0
      ∧ (install_host c env host profile timeout0).1
        = Except.error (PyErr.valueError
            ("No system " ++ host.hostname ++ " registered on install server"))
      ∧ ((install_host c env host profile timeout0).2).countP Event.isMutating = 0 := by
  have hg : get_system_handle c env host
      = (Except.error (PyErr.valueError
          ("No system " ++ host.hostname ++ " registered on install server")),
         [Event.findSystem host.hostname,
          Event.logError ("Error finding " ++ host.hostname)]) := by
    simp [get_system_handle, hfind]
  have hi : install_host c env host profile timeout0
      = (Except.error (PyErr.valueError
          ("No system " ++ host.hostname ++ " registered on install server")),
         Event.removeHostsFile
           :: [Event.findSystem host.hostname,
               Event.logError ("Error finding " ++ host.hostname)]) := by
    simp [install_host, hurl, hg]
  rw [hg, hi]
  exact ⟨rfl, rfl, rfl, rfl⟩

/-- Witness for C5 at a concrete input: host h1 is unknown to the install
server, the registration error is raised and nothing is mutated. -/
theorem c5_witness :
    (get_system_handle cfgW envNoSystem hostW).1
        = Except.error (PyErr.valueError
            ("No system " ++ hostW.hostname ++ " registered on install server"))
      ∧ ((get_system_handle cfgW envNoSystem hostW).2).countP Event.isMutating = 0
      ∧ (install_host cfgW envNoSystem hostW none none).1
        = Except.error (PyErr.valueError
            ("No system " ++ hostW.hostname ++ " registered on install server"))
      ∧ ((install_host cfgW envNoSystem hostW none none).2).countP
          Event.isMutating = 0 :=
  c5_unregistered_fails_without_mutation cfgW envNoSystem hostW none none
    (by decide) rfl

/-! Claim C6. -/

lemma dhcp_events_countP_log (env : Env) (f : XFault)
    (hfault : env.dhcp_fault = some f) :
    (dhcp_events env).countP Event.isLog
      = if strHasSub f.faultString "unknown remote method" then 0 else 1 := by
  simp only [dhcp_events, hfault, List.countP_cons]
  split <;> rfl

lemma pre_events_countP_log (c : CobblerInterface) (env : Env) (host : Host)
    (profile : Option String) (s : Nat) :
    (pre_events c env host profile s).countP Event.isLog
      = (dhcp_events env).countP Event.isLog := by
  simp [pre_events, List.countP_cons, List.countP_append,
    choose_profile_countP_log, Event.isLog]

/-- Claim C6 (confirmed): with a configured endpoint and a resolving host, a
`sync_dhcp` fault never propagates out of `install_host`; a fault whose
string mentions an unknown remote method is swallowed silently while any
other fault produces exactly one error-log event; in both cases the install
proceeds to `save_system` and then `power_system` right after the DHCP sync
step. -/
theorem c6_dhcp_fault_absorbed (c : CobblerInterface) (env : Env) (host : Host)
    (profile : Option String) (timeout0 : Option Nat) (s : Nat) (rest : List Nat)
    (f : XFault)
    (hurl : c.xmlrpc_url.isEmpty = false)
    (hfind : env.find_result = s :: rest)
    (hfault : env.dhcp_fault = some f) :
    (∀ code str, (install_host c env host profile timeout0).1
        ≠ Except.error (PyErr.fault code str))
    ∧ ((install_host c env host profile timeout0).2).countP Event.isLog
        = (if strHasSub f.faultString "unknown remote method" then 0 else 1)
    ∧ ∃ t, (install_host c env host profile timeout0).2
        = (Event.removeHostsFile :: Event.findSystem host.hostname
            :: Event.getSystemHandle s :: Event.getSystem s
            :: ((choose_profile c.fallback_profile profile
                  (env.get_system 0).profile).2
              ++ [Event.modifySystem "netboot_enabled" "True"]))
          ++ (Event.syncDhcp
              :: (if strHasSub f.faultString "unknown remote method" then []
                  else [Event.logError ("DHCP sync failed, error code: "
                    ++ toString f.faultCode ++ ", error string: "
                    ++ f.faultString)]))
          ++ Event.saveSystem :: Event.powerSystem "reboot" :: t := by
  set T := timeout0.getD 3600 with hT
  obtain ⟨h1, h2, h3, h4, h5⟩ :=
    poll_go_shape env T s T 0 0 (by simp only [step_time]; omega)
  refine ⟨?_, ?_, ?_⟩
  · intro code str h
    rw [install_host_fst c env host profile timeout0 s rest hurl hfind] at h
    split at h
    · exact Except.noConfusion h
    · exact PyErr.noConfusion (Except.error.inj h)
  · rw [install_host_snd c env host profile timeout0 s rest hurl hfind, ← hT]
    rw [List.countP_append, List.countP_append, pre_events_countP_log,
      dhcp_events_countP_log env f hfault]
    have hloop0 : ((poll_go env T s T 0 0).trace).countP Event.isLog = 0 := by
      rw [h3, poll_pattern_countP_log]
    have htail0 : (if (poll_go env T s T 0 0).install_successful
        then [Event.waitForRestart,
              Event.record "END GOOD" none "install" host.hostname]
        else [Event.record "END FAIL" none "install"
              (timeout_msg host)]).countP Event.isLog = 0 := by
      split <;> rfl
    rw [hloop0, htail0]
    simp
  · refine ⟨[Event.record "START" none "install" host.hostname,
        Event.record "GOOD" none "install.start" host.hostname]
        ++ (poll_go env T s T 0 0).trace
        ++ (if (poll_go env T s T 0 0).install_successful
            then [Event.waitForRestart,
                  Event.record "END GOOD" none "install" host.hostname]
            else [Event.record "END FAIL" none "install" (timeout_msg host)]), ?_⟩
    rw [install_host_snd c env host profile timeout0 s rest hurl hfind, ← hT]
    simp [pre_events, dhcp_events, hfault, List.append_assoc]

/-- Witness for C6 at a concrete input: `sync_dhcp` raises a fault "boom"
(not an unknown-method fault); it is logged exactly once, does not propagate,
and the install continues to `save_system` and `power_system`. -/
theorem c6_witness :
    (∀ code str, (install_host cfgW envFaultOther hostW none (some 120)).1
        ≠ Except.error (PyErr.fault code str))
    ∧ ((install_host cfgW envFaultOther hostW none (some 120)).2).countP
          Event.isLog
        = (if strHasSub (XFault.mk 7 "boom").faultString "unknown remote method"
           then 0 else 1)
    ∧ ∃ t, (install_host cfgW envFaultOther hostW none (some 120)).2
        = (Event.removeHostsFile :: Event.findSystem hostW.hostname
            :: Event.getSystemHandle 5 :: Event.getSystem 5
            :: ((choose_profile cfgW.fallback_profile none
                  (envFaultOther.get_system 0).profile).2
              ++ [Event.modifySystem "netboot_enabled" "True"]))
          ++ (Event.syncDhcp
              :: (if strHasSub (XFault.mk 7 "boom").faultString
                    "unknown remote method" then []
                  else [Event.logError ("DHCP sync failed, error code: "
                    ++ toString (XFault.mk 7 "boom").faultCode
                    ++ ", error string: "
                    ++ (XFault.mk 7 "boom").faultString)]))
          ++ Event.saveSystem :: Event.powerSystem "reboot" :: t :=
  c6_dhcp_fault_absorbed cfgW envFaultOther hostW none (some 120) 5 []
    (XFault.mk 7 "boom") (by decide) rfl rfl

/-! Claim C7. -/

/-- The result of any `install_host` call in this embedding is normal
termination, the registration `ValueError`, or the timeout error. -/
lemma install_result_cases (c : CobblerInterface) (env : Env) (host : Host)
    (profile : Option String) (timeout0 : Option Nat) :
    (install_host c env host profile timeout0).1 = Except.ok ()
    ∨ (∃ msg, (install_host c env host profile timeout0).1
        = Except.error (PyErr.valueError msg))
    ∨ (∃ msg, (install_host c env host profile timeout0).1
        = Except.error (PyErr.hostInstallTimeoutError msg)) := by
  cases hurl : c.xmlrpc_url.isEmpty with
  | true =>
      left
      simp [install_host, hurl]
  | false =>
      rcases hfind : env.find_result with _ | ⟨s, rest⟩
      · right; left
        refine ⟨"No system " ++ host.hostname ++ " registered on install server", ?_⟩
        simp [install_host, hurl, get_system_handle, hfind]
      · rw [install_host_fst c env host profile timeout0 s rest hurl hfind]
        split
        · left; rfl
        · right; right
          exact ⟨timeout_msg host, rfl⟩

/-- Claim C7, refuted as stated: the claim asserts the timeout error is the
only propagated error condition of install.  With a configured endpoint and
a host that matches no remote system, `install_host` propagates the
registration `ValueError`, which is not the timeout error. -/
theorem c7_counterexample :
    (install_host cfgW envNoSystem hostW none none).1
        = Except.error (PyErr.valueError "No system h1 registered on install server")
      ∧ (install_host cfgW envNoSystem hostW none none).1
        ≠ Except.error (PyErr.hostInstallTimeoutError (timeout_msg hostW)) := by
  constructor
  · rfl
  · intro h
    rw [show (install_host cfgW envNoSystem hostW none none).1
        = Except.error (PyErr.valueError "No system h1 registered on install server")
        from rfl] at h
    exact PyErr.noConfusion (Except.error.inj h)

/-- Claim C7, amended: with a configured endpoint, the timeout error and the
registration `ValueError` are the only errors `install_host` can propagate;
in particular a DHCP sync fault (the only remote fault the embedding lets
occur) never propagates. -/
theorem c7_terminal_errors (c : CobblerInterface) (env : Env) (host : Host)
    (profile : Option String) (timeout0 : Option Nat) :
    ((install_host c env host profile timeout0).1 = Except.ok ()
      ∨ (∃ msg, (install_host c env host profile timeout0).1
          = Except.error (PyErr.valueError msg))
      ∨ (∃ msg, (install_host c env host profile timeout0).1
          = Except.error (PyErr.hostInstallTimeoutError msg)))
    ∧ ∀ code str, (install_host c env host profile timeout0).1
        ≠ Except.error (PyErr.fault code str) := by
  refine ⟨install_result_cases c env host profile timeout0, ?_⟩
  intro code str h
  rcases install_result_cases c env host profile timeout0 with hok | ⟨m, hv⟩ | ⟨m, ht⟩
  · rw [h] at hok
    exact Except.noConfusion hok
  · rw [h] at hv
    exact PyErr.noConfusion (Except.error.inj hv)
  · rw [h] at ht
    exact PyErr.noConfusion (Except.error.inj ht)

/-! Claim C8. -/

/-- Claim C8 (confirmed): every `install_host` call that terminates with the
timeout error has recorded the host event ("END FAIL", None, "install", msg)
carrying the same timeout message, as the last event emitted before the
error is raised. -/
theorem c8_end_fail_recorded (c : CobblerInterface) (env : Env) (host : Host)
    (profile : Option String) (timeout0 : Option Nat) (msg : String)
    (hres : (install_host c env host profile timeout0).1
        = Except.error (PyErr.hostInstallTimeoutError msg)) :
    msg = timeout_msg host
      ∧ ∃ t, (install_host c env host profile timeout0).2
          = t ++ [Event.record "END FAIL" none "install" msg] := by
  cases hurl : c.xmlrpc_url.isEmpty with
  | true =>
      exfalso
      have hok : (install_host c env host profile timeout0).1 = Except.ok () := by
        simp [install_host, hurl]
      rw [hok] at hres
      exact Except.noConfusion hres
  | false =>
      rcases hfind : env.find_result with _ | ⟨s, rest⟩
      · exfalso
        have hv : (install_host c env host profile timeout0).1
            = Except.error (PyErr.valueError
                ("No system " ++ host.hostname ++ " registered on install server")) := by
          simp [install_host, hurl, get_system_handle, hfind]
        rw [hv] at hres
        exact PyErr.noConfusion (Except.error.inj hres)
      · rw [install_host_fst c env host profile timeout0 s rest hurl hfind] at hres
        by_cases hsucc : (poll_go env (timeout0.getD 3600) s
            (timeout0.getD 3600) 0 0).install_successful = true
        · rw [if_pos hsucc] at hres
          exact absurd hres (by simp)
        · rw [if_neg hsucc] at hres
          have hmsg : timeout_msg host = msg :=
            PyErr.hostInstallTimeoutError.inj (Except.error.inj hres)
          subst hmsg
          refine ⟨rfl, ⟨pre_events c env host profile s
            ++ (poll_go env (timeout0.getD 3600) s
                (timeout0.getD 3600) 0 0).trace, ?_⟩⟩
          rw [install_host_snd c env host profile timeout0 s rest hurl hfind,
            if_neg hsucc]

/-- Witness for C8 at a concrete input: the never-clearing system with a 60 s
timeout; the emitted trace ends with the END FAIL record carrying the
timeout message. -/
theorem c8_witness :
    "Host h1 install timed out" = timeout_msg hostW
      ∧ ∃ t, (install_host cfgW envAllOn hostW none (some 60)).2
          = t ++ [Event.record "END FAIL" none "install" "Host h1 install timed out"] :=
  c8_end_fail_recorded cfgW envAllOn hostW none (some 60)
    "Host h1 install timed out" rfl

/-! Claim C9. -/

/-- Claim C9 (confirmed): when the netboot flag first reads as cleared on a
poll whose wall-clock instant is at or past the configured timeout (the poll
runs because the loop-head tests up to it passed, and the sleep preceding it
pushes the clock to `elapsed_seq lag m + step_time` or beyond), install still
reports success: it proceeds to `wait_for_restart` and records END GOOD
rather than raising the timeout error, because the success check precedes the
elapsed-time re-comparison and the timeout is only tested at the loop head. -/
theorem c9_late_clear_still_succeeds (c : CobblerInterface) (env : Env)
    (host : Host) (profile : Option String) (timeout0 : Option Nat)
    (s : Nat) (rest : List Nat) (m : Nat)
    (hurl : c.xmlrpc_url.isEmpty = false)
    (hfind : env.find_result = s :: rest)
    (hm : (env.get_system (m + 1)).netboot_enabled = false)
    (hprev : ∀ j, j < m → (env.get_system (j + 1)).netboot_enabled = true)
    (hreach : ∀ j, j ≤ m → elapsed_seq env.lag j < timeout0.getD 3600)
    (hlate : timeout0.getD 3600 ≤ elapsed_seq env.lag m + step_time) :
    (install_host c env host profile timeout0).1 = Except.ok ()
      ∧ (install_host c env host profile timeout0).2
          = pre_events c env host profile s ++ poll_pattern s (m + 1)
            ++ [Event.waitForRestart,
                Event.record "END GOOD" none "install" host.hostname] := by
  set T := timeout0.getD 3600 with hT
  have hfuel : m + 1 ≤ 0 + T := by
    have h60 := elapsed_seq_lower env.lag m
    have hm' := hreach m (Nat.le_refl m)
    simp only [step_time] at h60
    omega
  have hrun : poll_go env T s T 0 0
      = ⟨true, m + 1, elapsed_seq env.lag m, poll_pattern s (m + 1 - 0)⟩ :=
    poll_go_success env T s m hm hprev hreach T 0 (Nat.zero_le m) (by omega)
  rw [Nat.sub_zero] at hrun
  constructor
  · rw [install_host_fst c env host profile timeout0 s rest hurl hfind, ← hT, hrun]
    rfl
  · rw [install_host_snd c env host profile timeout0 s rest hurl hfind, ← hT, hrun]
    rfl

/-- Witness for C9 at a concrete input: timeout 50 s, flag cleared on the
first poll, which happens only at the 60 s mark, after the timeout already
elapsed; install nevertheless succeeds. -/
theorem c9_witness :
    (install_host cfgW envClears1 hostW none (some 50)).1 = Except.ok ()
      ∧ (install_host cfgW envClears1 hostW none (some 50)).2
          = pre_events cfgW envClears1 hostW none 5 ++ poll_pattern 5 1
            ++ [Event.waitForRestart,
                Event.record "END GOOD" none "install" hostW.hostname] :=
  c9_late_clear_still_succeeds cfgW envClears1 hostW none (some 50) 5 [] 0
    (by decide) rfl rfl
    (fun j hj => absurd hj (Nat.not_lt_zero j))
    (by intro j hj
        interval_cases j <;> decide)
    (by decide)

/-! Claim C10. -/

/-- Claim C10 (confirmed): when no profile argument is given and the session
fallback profile is absent or empty (falsy), `install_host` never issues a
`modify_system` call for the profile field, and the effective profile is the
remote system's current profile. -/
theorem c10_no_fallback_keeps_profile (c : CobblerInterface) (env : Env)
    (host : Host) (timeout0 : Option Nat) (s : Nat) (rest : List Nat)
    (hurl : c.xmlrpc_url.isEmpty = false)
    (hfind : env.find_result = s :: rest)
    (hfb : truthy c.fallback_profile = false) :
    (choose_profile c.fallback_profile none (env.get_system 0).profile).1
        = (env.get_system 0).profile
      ∧ (choose_profile c.fallback_profile none (env.get_system 0).profile).2 = []
      ∧ ((install_host c env host none timeout0).2).countP
          Event.isModifyProfile = 0 := by
  have hc : choose_profile c.fallback_profile none (env.get_system 0).profile
      = ((env.get_system 0).profile, []) := by
    simp [choose_profile, requested_or_fallback, hfb]
  have key : ∀ l : List Event, l.countP Event.isModifyProfile
      = (l.filter Event.isModify).countP Event.isModifyProfile := by
    intro l
    rw [List.countP_filter]
    exact List.countP_congr (fun a _ => by
      cases a <;> simp [Event.isModifyProfile, Event.isModify])
  refine ⟨by rw [hc], by rw [hc], ?_⟩
  have h2 : (choose_profile c.fallback_profile none (env.get_system 0).profile).2
      = [] := by
    rw [hc]
  rw [key, install_filter_modify c env host none timeout0 s rest hurl hfind, h2]
  rfl

/-- Witness for C10 at a concrete input: no requested profile and a session
without a fallback profile; the current profile "old" is kept and no profile
mutation is issued. -/
theorem c10_witness :
    (choose_profile cfgNoFb.fallback_profile none
        (envClears1.get_system 0).profile).1 = (envClears1.get_system 0).profile
      ∧ (choose_profile cfgNoFb.fallback_profile none
          (envClears1.get_system 0).profile).2 = []
      ∧ ((install_host cfgNoFb envClears1 hostW none (some 120)).2).countP
          Event.isModifyProfile = 0 :=
  c10_no_fallback_keeps_profile cfgNoFb envClears1 hostW (some 120) 5 []
    (by decide) rfl rfl

end InstallServer
